import Mathlib

/-!
Shallow embedding of the Context Retrieval Simulator
(`src/experiments/utils/rag_simulator.py`, class `RAGSimulator`).

External effects are modelled explicitly:
* the entity store's per-category reads (`supabase.table(...).select(...)` and
  the `match_<category>` RPC) are parameters of type
  `String → ... → Except String (Option (List Entity))` — an exception, a
  `None`/falsy payload, or a list of records;
* `random.sample` is a parameter `sampler : List Entity → Nat → List Entity`;
* the embedding service and the chat-completion service are abstract
  function parameters of `run_experiment`.

Python dict records become structures; `d.get(k, default)` on an optional
field becomes `Option.getD`; Python truthiness of a possibly-missing list
(`if entities.get(c):`) becomes emptiness of `(r c).getD []`.
-/

/-- An entity record as read from the store: `name` is always present
(`item['name']` indexes unconditionally), `description` may be absent
(`item.get('description', '')`), and `is_priority` (rules only) is tested
for truthiness (`rule.get('is_priority')`), so a missing flag and a false
flag coincide. -/
structure Entity where
  name : String
  description : Option String
  is_priority : Bool
deriving Repr, DecidableEq

/-- World metadata: every field is read with `world_info.get(key, default)`,
so each may be absent. -/
structure World where
  name : Option String
  tone : Option String
  setting : Option String
  description : Option String
deriving Repr, DecidableEq

/-- The category / request-limit table of `retrieve_with_rag`
(`entity_types` dict literal, lines 43–51 of the source). -/
def entityTypesWithLimits (top_k : Nat) : List (String × Nat) :=
  [("items", top_k),
   ("abilities", top_k),
   ("locations", top_k),
   ("npcs", top_k),
   ("organizations", min top_k 3),
   ("taxonomies", min top_k 3),
   ("rules", max top_k 10)]

/-- The fixed category list of `retrieve_all_entities`. -/
def entity_types : List String :=
  ["items", "abilities", "locations", "npcs",
   "organizations", "taxonomies", "rules"]

/-- Models `response.data if response.data else []` applied to the store's reply:
an exception or a falsy payload (None or the empty list) becomes `[]`. -/
def dataOrEmpty (r : Except String (Option (List Entity))) : List Entity :=
  match r with
  | .ok (some data) => if data.isEmpty then [] else data
  | .ok none => []
  | .error _ => []

/-- The warning printed by the `except` arm, when the reply is an exception. -/
def warningFor (entity_type : String) (r : Except String (Option (List Entity))) :
    Option String :=
  match r with
  | .error e => some ("Warning: Failed to retrieve " ++ entity_type ++ ": " ++ e)
  | _ => none

/-- Models `RAGSimulator.retrieve_with_rag`: for each category of the limit table,
call the store's `match_<category>` function with that category's limit
(the query embedding and the similarity threshold are already applied inside
`matchFn`); an exception is caught, warned about, and the category resolves
to `[]`.  Returns the result mapping together with the warnings printed. -/
def retrieve_with_rag
    (matchFn : String → Nat → Except String (Option (List Entity)))
    (top_k : Nat) :
    List (String × List Entity) × List String :=
  ((entityTypesWithLimits top_k).map
      (fun p => (p.1, dataOrEmpty (matchFn p.1 p.2))),
   (entityTypesWithLimits top_k).filterMap
      (fun p => warningFor p.1 (matchFn p.1 p.2)))

/-- Models `RAGSimulator.retrieve_all_entities`: for each category, select all rows
of the world; an exception is caught, warned about, and the category
resolves to `[]`. -/
def retrieve_all_entities
    (store : String → Except String (Option (List Entity))) :
    List (String × List Entity) × List String :=
  (entity_types.map (fun c => (c, dataOrEmpty (store c))),
   entity_types.filterMap (fun c => warningFor c (store c)))

/-- Models `RAGSimulator.retrieve_random_entities`: take the full result, then
per category sample `min(len(entities), max(k,10))` rules or
`min(len(entities), k)` otherwise; an empty category stays `[]`. -/
def retrieve_random_entities
    (store : String → Except String (Option (List Entity)))
    (sampler : List Entity → Nat → List Entity)
    (k : Nat) :
    List (String × List Entity) × List String :=
  let all_entities := retrieve_all_entities store
  (all_entities.1.map (fun p =>
      let sample_size :=
        if p.1 = "rules" then min p.2.length (max k 10)
        else min p.2.length k
      (p.1, if p.2.isEmpty then [] else sampler p.2 sample_size)),
   all_entities.2)

/-- One `- <name>: <description>` line of a non-rules section. -/
def entityLine (e : Entity) : String :=
  "- " ++ (e.name ++ ": " ++ e.description.getD "")

/-- One rules line: `- {priority}{name}: {description}` where `priority`
is `"[HIGH PRIORITY] "` exactly when the flag is truthy. -/
def ruleLine (e : Entity) : String :=
  "- " ++ ((if e.is_priority then "[HIGH PRIORITY] " else "")
            ++ (e.name ++ ": " ++ e.description.getD ""))

/-- The category's entities as consulted by `assemble_context`:
`entities.get(c)` with a missing key and a present-but-empty list treated
alike by the `if entities.get(c):` truthiness tests. -/
def getCat (entities : String → Option (List Entity)) (c : String) :
    List Entity :=
  (entities c).getD []

/-- The block of parts one `if entities.get(c): ...` arm appends: nothing
when the category is falsy, otherwise the header, one line per entity, and
a trailing empty part. -/
def sectionParts (header : String) (line : Entity → String)
    (es : List Entity) : List String :=
  if es.isEmpty then [] else header :: (es.map line ++ [""])

/-- The `WORLD SETTING` parts, always appended first. -/
def worldParts (world_info : World) : List String :=
  ["=== WORLD SETTING ===",
   "Name: " ++ world_info.name.getD "Unknown",
   "Tone: " ++ world_info.tone.getD "neutral",
   "Setting: " ++ world_info.setting.getD "",
   "Description: " ++ world_info.description.getD "",
   ""]

/-- The full `context_parts` list of `RAGSimulator.assemble_context`. -/
def contextParts (entities : String → Option (List Entity))
    (world_info : World) : List String :=
  worldParts world_info
    ++ sectionParts "=== ITEMS ===" entityLine (getCat entities "items")
    ++ sectionParts "=== ABILITIES ===" entityLine (getCat entities "abilities")
    ++ sectionParts "=== LOCATIONS ===" entityLine (getCat entities "locations")
    ++ sectionParts "=== NPCs ===" entityLine (getCat entities "npcs")
    ++ sectionParts "=== RULES ===" ruleLine (getCat entities "rules")

/-- Models `RAGSimulator.assemble_context`: `"\n".join(context_parts)`. -/
def assemble_context (entities : String → Option (List Entity))
    (world_info : World) : String :=
  String.intercalate "\n" (contextParts entities world_info)

/-- The part of the chat-completion reply `run_experiment` consumes
(`generate_dm_response`'s returned dict, latency and model tag omitted). -/
structure GenerationResult where
  response_text : String
  input_tokens : Nat
  output_tokens : Nat
  total_tokens : Nat
deriving Repr, DecidableEq

/-- The result dict of `RAGSimulator.run_experiment` (the fields the claims
concern; the float-valued latency / temperature / threshold echoes are
omitted). -/
structure ExperimentOutcome where
  mode : String
  player_message : String
  context : String
  entity_counts : List (String × Nat)
  total_entities_retrieved : Nat
  response_text : String
  input_tokens : Nat
  output_tokens : Nat
  total_tokens : Nat
  top_k : Nat
deriving Repr, DecidableEq

/-- Models `RAGSimulator.run_experiment`: world lookup (fatal on failure), strategy
dispatch on the `mode` tag (raising `ValueError` on an unknown tag), context
assembly, one generation call, metrics capture.  The remote services are
explicit parameters: `worldLookup` the `worlds` single-row select, `embedFn`
the embedding service (`Emb` an abstract vector type), `matchFn` the
similarity RPC given a query embedding (threshold already applied), `store`
the per-category table select, `sampler` the random sampler, `genFn` the
chat completion given (context, player_message). -/
def run_experiment {Emb : Type}
    (worldLookup : Except String World)
    (embedFn : String → Emb)
    (matchFn : Emb → String → Nat → Except String (Option (List Entity)))
    (store : String → Except String (Option (List Entity)))
    (sampler : List Entity → Nat → List Entity)
    (genFn : String → String → GenerationResult)
    (player_message : String) (mode : String) (top_k : Nat) :
    Except String ExperimentOutcome := do
  let world_info ← worldLookup
  let entities ←
    if mode = "rag" then
      let query_embedding := embedFn player_message
      Except.ok (retrieve_with_rag (matchFn query_embedding) top_k).1
    else if mode = "no_rag" then
      Except.ok (retrieve_all_entities store).1
    else if mode = "random" then
      Except.ok (retrieve_random_entities store sampler top_k).1
    else
      Except.error ("Unknown mode: " ++ mode)
  let context := assemble_context (fun c => entities.lookup c) world_info
  let generation_result := genFn context player_message
  let entity_counts := entities.map (fun p => (p.1, p.2.length))
  Except.ok
    { mode := mode
      player_message := player_message
      context := context
      entity_counts := entity_counts
      total_entities_retrieved := (entity_counts.map Prod.snd).sum
      response_text := generation_result.response_text
      input_tokens := generation_result.input_tokens
      output_tokens := generation_result.output_tokens
      total_tokens := generation_result.total_tokens
      top_k := top_k }

/-- The number of entities the full retrieval yields for a category — the
`len(entities)` the random strategy's sample sizes are computed from. -/
def storeLen (store : String → Except String (Option (List Entity)))
    (c : String) : Nat :=
  (dataOrEmpty (store c)).length

/-- A concrete store used by witnesses: two items, one rule, nothing else. -/
def wStore : String → Except String (Option (List Entity)) := fun c =>
  if c = "items"
    then .ok (some [⟨"Sword", some "A sharp blade", false⟩,
                    ⟨"Shield", none, false⟩])
  else if c = "rules"
    then .ok (some [⟨"Initiative", some "Roll first", true⟩])
  else .ok (some [])

/-- The retrieval result of the spec's end-to-end scenario: one item, one
priority rule, all other categories absent. -/
def scenarioEntities : String → Option (List Entity) := fun c =>
  if c = "items" then some [⟨"Sword", some "A sharp blade", false⟩]
  else if c = "rules" then some [⟨"Initiative", some "Roll first", true⟩]
  else none

/-- The world of the spec's end-to-end scenario. -/
def scenarioWorld : World :=
  ⟨some "Test", some "grim", some "frontier", some "A harsh land"⟩

/-! ### Helper lemmas -/

theorem lookup_map_keyed {α β : Type} (f : String → α → β)
    (l : List (String × α)) (c : String) :
    (l.map (fun p => (p.1, f p.1 p.2))).lookup c = (l.lookup c).map (f c) := by
  induction l with
  | nil => rfl
  | cons p t ih =>
    simp only [List.map_cons, List.lookup]
    cases hb : c == p.1 with
    | false => simpa using ih
    | true =>
      have hc : c = p.1 := by simpa using hb
      subst hc
      simp

theorem lookup_map_self {α : Type} (f : String → α)
    (l : List String) (c : String) :
    (l.map (fun s => (s, f s))).lookup c
      = if c ∈ l then some (f c) else none := by
  induction l with
  | nil => rfl
  | cons s t ih =>
    simp only [List.map_cons, List.lookup]
    cases hb : c == s with
    | false =>
      have hc : ¬ c = s := by simpa using hb
      simp [ih, hc]
    | true =>
      have hc : c = s := by simpa using hb
      subst hc
      simp

theorem mem_of_lookup_eq_some {α : Type} {l : List (String × α)}
    {c : String} {v : α} (h : l.lookup c = some v) : (c, v) ∈ l := by
  induction l with
  | nil => simp [List.lookup] at h
  | cons p t ih =>
    rw [List.lookup] at h
    rcases hb : (c == p.1) with _ | _
    · rw [hb] at h
      exact List.mem_cons_of_mem _ (ih h)
    · rw [hb] at h
      cases h
      have : c = p.1 := by simpa using hb
      subst this
      exact List.mem_cons_self _ _

theorem append_ne_of_headChar (a b s : String)
    (ha : a.data ≠ []) (h : b.data.head? ≠ a.data.head?) : b ≠ a ++ s := by
  intro he
  apply h
  rw [he, String.data_append, List.head?_append_of_ne_nil _ ha]

theorem mem_sectionParts {H header : String} {line : Entity → String}
    {es : List Entity} (h : H ∈ sectionParts header line es) :
    es ≠ [] ∧ (H = header ∨ (∃ e ∈ es, H = line e) ∨ H = "") := by
  unfold sectionParts at h
  split at h
  · simp at h
  · next hne =>
    refine ⟨by simpa [List.isEmpty_iff] using hne, ?_⟩
    simp only [List.mem_cons, List.mem_append, List.mem_map] at h
    rcases h with h | h | h | h
    · exact Or.inl h
    · rcases h with ⟨e, he, hl⟩
      exact Or.inr (Or.inl ⟨e, he, hl.symm⟩)
    · exact Or.inr (Or.inr h)
    · exact absurd h (List.not_mem_nil _)

theorem notin_sectionParts {H header : String} {line : Entity → String}
    {es : List Entity} (h1 : H ≠ header) (h2 : ∀ e, H ≠ line e) (h3 : H ≠ "") :
    H ∉ sectionParts header line es := by
  intro hmem
  rcases mem_sectionParts hmem with ⟨-, hc | ⟨e, -, hc⟩ | hc⟩
  exacts [h1 hc, h2 e hc, h3 hc]

theorem mem_worldParts {H : String} {w : World} (h : H ∈ worldParts w) :
    H = "=== WORLD SETTING ===" ∨ (∃ s, H = "Name: " ++ s) ∨
    (∃ s, H = "Tone: " ++ s) ∨ (∃ s, H = "Setting: " ++ s) ∨
    (∃ s, H = "Description: " ++ s) ∨ H = "" := by
  simp only [worldParts, List.mem_cons] at h
  rcases h with h | h | h | h | h | h | h
  · exact Or.inl h
  · exact Or.inr (Or.inl ⟨_, h⟩)
  · exact Or.inr (Or.inr (Or.inl ⟨_, h⟩))
  · exact Or.inr (Or.inr (Or.inr (Or.inl ⟨_, h⟩)))
  · exact Or.inr (Or.inr (Or.inr (Or.inr (Or.inl ⟨_, h⟩))))
  · exact Or.inr (Or.inr (Or.inr (Or.inr (Or.inr h))))
  · exact absurd h (List.not_mem_nil _)

theorem header_notin_worldParts (H : String) (hH : H.data.head? = some '=')
    (hW : H ≠ "=== WORLD SETTING ===") (h0 : H ≠ "") (w : World) :
    H ∉ worldParts w := by
  intro hmem
  rcases mem_worldParts hmem with h | ⟨s, h⟩ | ⟨s, h⟩ | ⟨s, h⟩ | ⟨s, h⟩ | h
  · exact hW h
  · exact append_ne_of_headChar "Name: " H s (by decide) (by rw [hH]; decide) h
  · exact append_ne_of_headChar "Tone: " H s (by decide) (by rw [hH]; decide) h
  · exact append_ne_of_headChar "Setting: " H s (by decide) (by rw [hH]; decide) h
  · exact append_ne_of_headChar "Description: " H s (by decide) (by rw [hH]; decide) h
  · exact h0 h

theorem header_ne_entityLine (H : String) (hH : H.data.head? = some '=')
    (e : Entity) : H ≠ entityLine e := by
  unfold entityLine
  exact append_ne_of_headChar "- " H _ (by decide) (by rw [hH]; decide)

theorem header_ne_ruleLine (H : String) (hH : H.data.head? = some '=')
    (e : Entity) : H ≠ ruleLine e := by
  unfold ruleLine
  exact append_ne_of_headChar "- " H _ (by decide) (by rw [hH]; decide)

theorem mem_contextParts {H : String} {r : String → Option (List Entity)}
    {w : World} (h : H ∈ contextParts r w) :
    H ∈ worldParts w ∨
    H ∈ sectionParts "=== ITEMS ===" entityLine (getCat r "items") ∨
    H ∈ sectionParts "=== ABILITIES ===" entityLine (getCat r "abilities") ∨
    H ∈ sectionParts "=== LOCATIONS ===" entityLine (getCat r "locations") ∨
    H ∈ sectionParts "=== NPCs ===" entityLine (getCat r "npcs") ∨
    H ∈ sectionParts "=== RULES ===" ruleLine (getCat r "rules") := by
  simp only [contextParts, List.mem_append] at h
  tauto

theorem lookup_retrieve_all
    (store : String → Except String (Option (List Entity)))
    (c : String) (hc : c ∈ entity_types) :
    (retrieve_all_entities store).1.lookup c = some (dataOrEmpty (store c)) := by
  simp only [entity_types, List.mem_cons, List.not_mem_nil, or_false] at hc
  rcases hc with rfl | rfl | rfl | rfl | rfl | rfl | rfl <;> rfl

theorem lookup_retrieve_with_rag
    (matchFn : String → Nat → Except String (Option (List Entity)))
    (top_k : Nat) (c : String) (lim : Nat)
    (hc : (entityTypesWithLimits top_k).lookup c = some lim) :
    (retrieve_with_rag matchFn top_k).1.lookup c
      = some (dataOrEmpty (matchFn c lim)) := by
  have hmem := mem_of_lookup_eq_some hc
  simp only [entityTypesWithLimits, List.mem_cons, List.not_mem_nil, or_false,
    Prod.mk.injEq] at hmem
  rcases hmem with ⟨rfl, rfl⟩ | ⟨rfl, rfl⟩ | ⟨rfl, rfl⟩ | ⟨rfl, rfl⟩
    | ⟨rfl, rfl⟩ | ⟨rfl, rfl⟩ | ⟨rfl, rfl⟩ <;> rfl

theorem lookup_retrieve_random
    (store : String → Except String (Option (List Entity)))
    (sampler : List Entity → Nat → List Entity) (k : Nat)
    (c : String) (hc : c ∈ entity_types) :
    (retrieve_random_entities store sampler k).1.lookup c
      = some (if (dataOrEmpty (store c)).isEmpty then []
              else sampler (dataOrEmpty (store c))
                (if c = "rules"
                 then min (dataOrEmpty (store c)).length (max k 10)
                 else min (dataOrEmpty (store c)).length k)) := by
  simp only [entity_types, List.mem_cons, List.not_mem_nil, or_false] at hc
  rcases hc with rfl | rfl | rfl | rfl | rfl | rfl | rfl <;> rfl

/-! ### Claim theorems -/

/-- C1: for the similarity strategy (`retrieve_with_rag`), the per-category
nearest-neighbor request limit is `max(k,10)` for `rules`, `min(k,3)` for
`organizations` and `taxonomies`, and `k` for `items`, `abilities`,
`locations` and `npcs`. -/
theorem similarity_per_category_limits (k : Nat) :
    (entityTypesWithLimits k).lookup "rules" = some (max k 10) ∧
    (entityTypesWithLimits k).lookup "organizations" = some (min k 3) ∧
    (entityTypesWithLimits k).lookup "taxonomies" = some (min k 3) ∧
    (entityTypesWithLimits k).lookup "items" = some k ∧
    (entityTypesWithLimits k).lookup "abilities" = some k ∧
    (entityTypesWithLimits k).lookup "locations" = some k ∧
    (entityTypesWithLimits k).lookup "npcs" = some k :=
  ⟨rfl, rfl, rfl, rfl, rfl, rfl, rfl⟩

/-- C2: for the similarity strategy, one category's failure (an exception
from the backing `match_<category>` call, surfacing a warning) or empty
reply resolves that category to `[]`, and every category's result depends
only on its own backing reply, which resolves normally to its data. -/
theorem similarity_per_category_isolation
    (matchFn : String → Nat → Except String (Option (List Entity)))
    (top_k : Nat) (c : String) (lim : Nat)
    (hc : (entityTypesWithLimits top_k).lookup c = some lim) :
    (∀ e, matchFn c lim = .error e →
        (retrieve_with_rag matchFn top_k).1.lookup c = some [] ∧
        ("Warning: Failed to retrieve " ++ c ++ ": " ++ e)
          ∈ (retrieve_with_rag matchFn top_k).2) ∧
    (matchFn c lim = .ok none →
        (retrieve_with_rag matchFn top_k).1.lookup c = some []) ∧
    (∀ d, matchFn c lim = .ok (some d) →
        (retrieve_with_rag matchFn top_k).1.lookup c = some d) := by
  have hlook := lookup_retrieve_with_rag matchFn top_k c lim hc
  refine ⟨fun e he => ⟨?_, ?_⟩, fun he => ?_, fun d hd => ?_⟩
  · rw [hlook, he]; rfl
  · refine List.mem_filterMap.mpr ⟨(c, lim), mem_of_lookup_eq_some hc, ?_⟩
    simp only [warningFor, he]
  · rw [hlook, he]; rfl
  · rw [hlook, hd]
    unfold dataOrEmpty
    cases d with
    | nil => rfl
    | cons x xs => rfl

/-- C2 witness: a matcher that errors on `rules`, returns no entity for
`organizations`, and one item for `items`, with `top_k = 5`. -/
theorem similarity_per_category_isolation_witness :
    ((entityTypesWithLimits 5).lookup "rules" = some 10) ∧
    (retrieve_with_rag
        (fun c _ =>
          if c = "rules" then .error "boom"
          else if c = "items"
            then .ok (some [⟨"Sword", some "A sharp blade", false⟩])
          else .ok none)
        5).1.lookup "rules" = some [] ∧
    "Warning: Failed to retrieve rules: boom"
      ∈ (retrieve_with_rag
        (fun c _ =>
          if c = "rules" then .error "boom"
          else if c = "items"
            then .ok (some [⟨"Sword", some "A sharp blade", false⟩])
          else .ok none)
        5).2 := by
  refine ⟨rfl, ?_, ?_⟩
  · exact ((similarity_per_category_isolation _ 5 "rules" 10 rfl).1 "boom" rfl).1
  · exact ((similarity_per_category_isolation _ 5 "rules" 10 rfl).1 "boom" rfl).2

/-- C4: the full strategy returns, for every category, exactly the list the
store holds for that category (store-native order, hence equal count). -/
theorem full_strategy_returns_store_list
    (store : String → Except String (Option (List Entity)))
    (c : String) (d : List Entity)
    (hc : c ∈ entity_types) (hd : store c = .ok (some d)) :
    (retrieve_all_entities store).1.lookup c = some d := by
  rw [lookup_retrieve_all store c hc, hd]
  unfold dataOrEmpty
  cases d with
  | nil => rfl
  | cons x xs => rfl

/-- C4 witness: a concrete store holding two items. -/
theorem full_strategy_returns_store_list_witness :
    ("items" ∈ entity_types) ∧
    (retrieve_all_entities
        (fun c =>
          if c = "items"
            then .ok (some [⟨"Sword", some "A sharp blade", false⟩,
                            ⟨"Shield", none, false⟩])
          else .ok (some []))).1.lookup "items"
      = some [⟨"Sword", some "A sharp blade", false⟩, ⟨"Shield", none, false⟩] :=
  ⟨by decide,
   full_strategy_returns_store_list _ "items" _ (by decide) rfl⟩

/-- C9: full retrieval also catches per-category store failures: an erroring
category resolves to `[]` with a warning, other categories still resolve to
their store list, and the random strategy built on top inherits the empty
resolution for the erroring category. -/
theorem full_retrieval_per_category_isolation
    (store : String → Except String (Option (List Entity)))
    (c : String) (e : String)
    (hc : c ∈ entity_types) (he : store c = .error e) :
    (retrieve_all_entities store).1.lookup c = some [] ∧
    ("Warning: Failed to retrieve " ++ c ++ ": " ++ e)
      ∈ (retrieve_all_entities store).2 ∧
    (∀ c' d, c' ∈ entity_types → store c' = .ok (some d) →
        (retrieve_all_entities store).1.lookup c' = some d) ∧
    (∀ sampler k,
        (retrieve_random_entities store sampler k).1.lookup c = some []) := by
  refine ⟨?_, ?_, ?_, ?_⟩
  · rw [lookup_retrieve_all store c hc, he]; rfl
  · refine List.mem_filterMap.mpr ⟨c, hc, ?_⟩
    simp only [warningFor, he]
  · intro c' d hc' hd
    rw [lookup_retrieve_all store c' hc', hd]
    unfold dataOrEmpty
    cases d with
    | nil => rfl
    | cons x xs => rfl
  · intro sampler k
    rw [lookup_retrieve_random store sampler k c hc, he]
    rfl

/-- C9 witness: a store erroring on `npcs` and holding one rule. -/
theorem full_retrieval_per_category_isolation_witness :
    ("npcs" ∈ entity_types) ∧
    (retrieve_all_entities
        (fun c =>
          if c = "npcs" then .error "down"
          else if c = "rules"
            then .ok (some [⟨"Initiative", some "Roll first", true⟩])
          else .ok (some []))).1.lookup "npcs" = some [] ∧
    "Warning: Failed to retrieve npcs: down"
      ∈ (retrieve_all_entities
        (fun c =>
          if c = "npcs" then .error "down"
          else if c = "rules"
            then .ok (some [⟨"Initiative", some "Roll first", true⟩])
          else .ok (some []))).2 := by
  refine ⟨by decide, ?_, ?_⟩
  · exact (full_retrieval_per_category_isolation _ "npcs" "down" (by decide) rfl).1
  · exact (full_retrieval_per_category_isolation _ "npcs" "down" (by decide) rfl).2.1

theorem random_count_aux
    (store : String → Except String (Option (List Entity))) (k : Nat)
    (c : String) (hc : c ∈ entity_types)
    (sampler : List Entity → Nat → List Entity)
    (hs : ∀ l n, n ≤ l.length → (sampler l n).length = n) :
    ((retrieve_random_entities store sampler k).1.lookup c).map List.length
      = some (if c = "rules" then min (storeLen store c) (max k 10)
              else min (storeLen store c) k) := by
  rw [lookup_retrieve_random store sampler k c hc]
  simp only [Option.map_some']
  congr 1
  by_cases he : dataOrEmpty (store c) = []
  · simp [he, storeLen]
  · have he' : (dataOrEmpty (store c)).isEmpty = false := by
      simpa [List.isEmpty_iff] using he
    simp only [he', Bool.false_eq_true, if_false, storeLen]
    by_cases hr : c = "rules"
    · simp only [hr, if_true]
      exact hs _ _ (Nat.min_le_left _ _)
    · simp only [hr, if_false]
      exact hs _ _ (Nat.min_le_left _ _)

/-- C3: for the random strategy with parameter `k`, every non-`rules`
category's returned count is `min(category_total, k)` and the `rules`
count is `min(rules_total, max(k,10))`, for any store contents and any
length-respecting sampler; two runs (any two such samplers) yield
identical counts. -/
theorem random_strategy_counts
    (store : String → Except String (Option (List Entity)))
    (sampler : List Entity → Nat → List Entity) (k : Nat)
    (hs : ∀ l n, n ≤ l.length → (sampler l n).length = n) :
    (∀ c, c ∈ entity_types →
      ((retrieve_random_entities store sampler k).1.lookup c).map List.length
        = some (if c = "rules" then min (storeLen store c) (max k 10)
                else min (storeLen store c) k)) ∧
    (∀ sampler', (∀ l n, n ≤ l.length → (sampler' l n).length = n) →
      ∀ c, c ∈ entity_types →
        ((retrieve_random_entities store sampler' k).1.lookup c).map List.length
          = ((retrieve_random_entities store sampler k).1.lookup c).map
              List.length) :=
  ⟨fun c hc => random_count_aux store k c hc sampler hs,
   fun sampler' hs' c hc =>
     (random_count_aux store k c hc sampler' hs').trans
       (random_count_aux store k c hc sampler hs).symm⟩

/-- C3 witness: the concrete store (two items, one rule), the take-sampler,
`k = 1`: items count `min(2,1) = 1`, rules count `min(1, max(1,10)) = 1`. -/
theorem random_strategy_counts_witness :
    (∀ (l : List Entity) (n : Nat), n ≤ l.length → (l.take n).length = n) ∧
    ((retrieve_random_entities wStore (fun l n => l.take n) 1).1.lookup
        "items").map List.length = some 1 ∧
    ((retrieve_random_entities wStore (fun l n => l.take n) 1).1.lookup
        "rules").map List.length = some 1 := by
  have hs : ∀ (l : List Entity) (n : Nat), n ≤ l.length →
      (l.take n).length = n := by
    intro l n h
    simp only [List.length_take]
    omega
  refine ⟨hs, ?_, ?_⟩
  · rw [(random_strategy_counts wStore (fun l n => l.take n) 1 hs).1 "items"
      (by decide)]
    rfl
  · rw [(random_strategy_counts wStore (fun l n => l.take n) 1 hs).1 "rules"
      (by decide)]
    rfl

theorem items_header_notin {r : String → Option (List Entity)} {w : World}
    (hempty : getCat r "items" = []) :
    "=== ITEMS ===" ∉ contextParts r w := by
  intro hmem
  rcases mem_contextParts hmem with h | h | h | h | h | h
  · exact header_notin_worldParts _ (by decide) (by decide) (by decide) w h
  · exact (mem_sectionParts h).1 hempty
  · exact notin_sectionParts (by decide)
      (fun e => header_ne_entityLine _ (by decide) e) (by decide) h
  · exact notin_sectionParts (by decide)
      (fun e => header_ne_entityLine _ (by decide) e) (by decide) h
  · exact notin_sectionParts (by decide)
      (fun e => header_ne_entityLine _ (by decide) e) (by decide) h
  · exact notin_sectionParts (by decide)
      (fun e => header_ne_ruleLine _ (by decide) e) (by decide) h

theorem abilities_header_notin {r : String → Option (List Entity)} {w : World}
    (hempty : getCat r "abilities" = []) :
    "=== ABILITIES ===" ∉ contextParts r w := by
  intro hmem
  rcases mem_contextParts hmem with h | h | h | h | h | h
  · exact header_notin_worldParts _ (by decide) (by decide) (by decide) w h
  · exact notin_sectionParts (by decide)
      (fun e => header_ne_entityLine _ (by decide) e) (by decide) h
  · exact (mem_sectionParts h).1 hempty
  · exact notin_sectionParts (by decide)
      (fun e => header_ne_entityLine _ (by decide) e) (by decide) h
  · exact notin_sectionParts (by decide)
      (fun e => header_ne_entityLine _ (by decide) e) (by decide) h
  · exact notin_sectionParts (by decide)
      (fun e => header_ne_ruleLine _ (by decide) e) (by decide) h

theorem locations_header_notin {r : String → Option (List Entity)} {w : World}
    (hempty : getCat r "locations" = []) :
    "=== LOCATIONS ===" ∉ contextParts r w := by
  intro hmem
  rcases mem_contextParts hmem with h | h | h | h | h | h
  · exact header_notin_worldParts _ (by decide) (by decide) (by decide) w h
  · exact notin_sectionParts (by decide)
      (fun e => header_ne_entityLine _ (by decide) e) (by decide) h
  · exact notin_sectionParts (by decide)
      (fun e => header_ne_entityLine _ (by decide) e) (by decide) h
  · exact (mem_sectionParts h).1 hempty
  · exact notin_sectionParts (by decide)
      (fun e => header_ne_entityLine _ (by decide) e) (by decide) h
  · exact notin_sectionParts (by decide)
      (fun e => header_ne_ruleLine _ (by decide) e) (by decide) h

theorem npcs_header_notin {r : String → Option (List Entity)} {w : World}
    (hempty : getCat r "npcs" = []) :
    "=== NPCs ===" ∉ contextParts r w := by
  intro hmem
  rcases mem_contextParts hmem with h | h | h | h | h | h
  · exact header_notin_worldParts _ (by decide) (by decide) (by decide) w h
  · exact notin_sectionParts (by decide)
      (fun e => header_ne_entityLine _ (by decide) e) (by decide) h
  · exact notin_sectionParts (by decide)
      (fun e => header_ne_entityLine _ (by decide) e) (by decide) h
  · exact notin_sectionParts (by decide)
      (fun e => header_ne_entityLine _ (by decide) e) (by decide) h
  · exact (mem_sectionParts h).1 hempty
  · exact notin_sectionParts (by decide)
      (fun e => header_ne_ruleLine _ (by decide) e) (by decide) h

theorem rules_header_notin {r : String → Option (List Entity)} {w : World}
    (hempty : getCat r "rules" = []) :
    "=== RULES ===" ∉ contextParts r w := by
  intro hmem
  rcases mem_contextParts hmem with h | h | h | h | h | h
  · exact header_notin_worldParts _ (by decide) (by decide) (by decide) w h
  · exact notin_sectionParts (by decide)
      (fun e => header_ne_entityLine _ (by decide) e) (by decide) h
  · exact notin_sectionParts (by decide)
      (fun e => header_ne_entityLine _ (by decide) e) (by decide) h
  · exact notin_sectionParts (by decide)
      (fun e => header_ne_entityLine _ (by decide) e) (by decide) h
  · exact notin_sectionParts (by decide)
      (fun e => header_ne_entityLine _ (by decide) e) (by decide) h
  · exact (mem_sectionParts h).1 hempty

theorem organizations_header_notin {r : String → Option (List Entity)}
    {w : World} : "=== ORGANIZATIONS ===" ∉ contextParts r w := by
  intro hmem
  rcases mem_contextParts hmem with h | h | h | h | h | h
  · exact header_notin_worldParts _ (by decide) (by decide) (by decide) w h
  · exact notin_sectionParts (by decide)
      (fun e => header_ne_entityLine _ (by decide) e) (by decide) h
  · exact notin_sectionParts (by decide)
      (fun e => header_ne_entityLine _ (by decide) e) (by decide) h
  · exact notin_sectionParts (by decide)
      (fun e => header_ne_entityLine _ (by decide) e) (by decide) h
  · exact notin_sectionParts (by decide)
      (fun e => header_ne_entityLine _ (by decide) e) (by decide) h
  · exact notin_sectionParts (by decide)
      (fun e => header_ne_ruleLine _ (by decide) e) (by decide) h

theorem taxonomies_header_notin {r : String → Option (List Entity)}
    {w : World} : "=== TAXONOMIES ===" ∉ contextParts r w := by
  intro hmem
  rcases mem_contextParts hmem with h | h | h | h | h | h
  · exact header_notin_worldParts _ (by decide) (by decide) (by decide) w h
  · exact notin_sectionParts (by decide)
      (fun e => header_ne_entityLine _ (by decide) e) (by decide) h
  · exact notin_sectionParts (by decide)
      (fun e => header_ne_entityLine _ (by decide) e) (by decide) h
  · exact notin_sectionParts (by decide)
      (fun e => header_ne_entityLine _ (by decide) e) (by decide) h
  · exact notin_sectionParts (by decide)
      (fun e => header_ne_entityLine _ (by decide) e) (by decide) h
  · exact notin_sectionParts (by decide)
      (fun e => header_ne_ruleLine _ (by decide) e) (by decide) h

/-- C7: context assembly treats an absent category exactly like one mapped
to an empty sequence (the output only depends on `getCat`), never errors,
and an empty or absent category contributes no section header to the parts;
only items, abilities, locations, npcs and rules ever produce a section
header (organizations and taxonomies never do). -/
theorem absent_category_treated_as_empty :
    (∀ (r₁ r₂ : String → Option (List Entity)) (w : World),
        (∀ c, getCat r₁ c = getCat r₂ c) →
        assemble_context r₁ w = assemble_context r₂ w) ∧
    (∀ (r : String → Option (List Entity)) (w : World),
        (getCat r "items" = [] → "=== ITEMS ===" ∉ contextParts r w) ∧
        (getCat r "abilities" = [] → "=== ABILITIES ===" ∉ contextParts r w) ∧
        (getCat r "locations" = [] → "=== LOCATIONS ===" ∉ contextParts r w) ∧
        (getCat r "npcs" = [] → "=== NPCs ===" ∉ contextParts r w) ∧
        (getCat r "rules" = [] → "=== RULES ===" ∉ contextParts r w) ∧
        "=== ORGANIZATIONS ===" ∉ contextParts r w ∧
        "=== TAXONOMIES ===" ∉ contextParts r w) := by
  constructor
  · intro r₁ r₂ w h
    unfold assemble_context contextParts
    rw [h "items", h "abilities", h "locations", h "npcs", h "rules"]
  · intro r w
    exact ⟨items_header_notin, abilities_header_notin, locations_header_notin,
      npcs_header_notin, rules_header_notin, organizations_header_notin,
      taxonomies_header_notin⟩

/-- C7 witness: the all-absent mapping assembles identically to the
all-empty mapping, and contributes no ITEMS header. -/
theorem absent_category_treated_as_empty_witness :
    assemble_context (fun _ => none) scenarioWorld
      = assemble_context (fun _ => some []) scenarioWorld ∧
    "=== ITEMS ===" ∉ contextParts (fun _ => none) scenarioWorld :=
  ⟨absent_category_treated_as_empty.1 _ _ scenarioWorld (fun _ => rfl),
   (absent_category_treated_as_empty.2 _ scenarioWorld).1 rfl⟩

theorem empty_str_append (s : String) : "" ++ s = s := by
  cases s
  rfl

/-- C8: a rules line is `- ` followed by the `[HIGH PRIORITY] ` prefix
exactly when the priority flag is set, then `<name>: <description>`; and
every rules entity of the retrieval result gets such a line among the
assembled context parts. -/
theorem priority_prefix_iff_flag :
    (∀ e : Entity, e.is_priority = true →
        ruleLine e
          = "- [HIGH PRIORITY] " ++ (e.name ++ ": " ++ e.description.getD "")) ∧
    (∀ e : Entity, e.is_priority = false →
        ruleLine e = "- " ++ (e.name ++ ": " ++ e.description.getD "")) ∧
    (∀ (r : String → Option (List Entity)) (w : World) (e : Entity),
        e ∈ getCat r "rules" → ruleLine e ∈ contextParts r w) := by
  refine ⟨?_, ?_, ?_⟩
  · intro e h
    unfold ruleLine
    rw [h]
    simp only [if_true]
    rw [← String.append_assoc]
    congr 1
  · intro e h
    unfold ruleLine
    rw [h]
    simp only [Bool.false_eq_true, if_false]
    rw [empty_str_append]
  · intro r w e he
    unfold contextParts
    refine List.mem_append_right _ ?_
    unfold sectionParts
    cases hh : (getCat r "rules").isEmpty with
    | true =>
      rw [List.isEmpty_iff.mp hh] at he
      exact absurd he (List.not_mem_nil e)
    | false =>
      simp only [Bool.false_eq_true, if_false]
      exact List.mem_cons_of_mem _
        (List.mem_append_left _ (List.mem_map_of_mem _ he))

/-- C8 witness: the scenario's priority rule renders with the prefix and its
line is among the scenario's context parts. -/
theorem priority_prefix_iff_flag_witness :
    (Entity.mk "Initiative" (some "Roll first") true).is_priority = true ∧
    ruleLine (Entity.mk "Initiative" (some "Roll first") true)
      = "- [HIGH PRIORITY] Initiative: Roll first" ∧
    ruleLine (Entity.mk "Initiative" (some "Roll first") true)
      ∈ contextParts scenarioEntities scenarioWorld :=
  ⟨rfl,
   (priority_prefix_iff_flag.1 _ rfl).trans (by rfl),
   priority_prefix_iff_flag.2.2 scenarioEntities scenarioWorld _ (by decide)⟩

/-- C10: the WORLD SETTING section is always produced in full, with
`Unknown` for a missing name, `neutral` for a missing tone, and the empty
string for missing setting or description. -/
theorem world_setting_defaults
    (r : String → Option (List Entity)) (w : World) :
    (contextParts r w).take 6 =
      ["=== WORLD SETTING ===",
       "Name: " ++ w.name.getD "Unknown",
       "Tone: " ++ w.tone.getD "neutral",
       "Setting: " ++ w.setting.getD "",
       "Description: " ++ w.description.getD "",
       ""] ∧
    (w.name = none → "Name: " ++ w.name.getD "Unknown" = "Name: Unknown") ∧
    (w.tone = none → "Tone: " ++ w.tone.getD "neutral" = "Tone: neutral") ∧
    (w.setting = none → "Setting: " ++ w.setting.getD "" = "Setting: ") ∧
    (w.description = none →
        "Description: " ++ w.description.getD "" = "Description: ") :=
  ⟨rfl,
   fun h => by rw [h]; rfl,
   fun h => by rw [h]; rfl,
   fun h => by rw [h]; rfl,
   fun h => by rw [h]; rfl⟩

/-- C10 witness: the fully-missing world metadata still yields the full
WORLD SETTING block, with all defaults. -/
theorem world_setting_defaults_witness :
    (World.mk none none none none).name = none ∧
    (contextParts (fun _ => none) (World.mk none none none none)).take 6 =
      ["=== WORLD SETTING ===", "Name: Unknown", "Tone: neutral",
       "Setting: ", "Description: ", ""] :=
  ⟨rfl,
   ((world_setting_defaults (fun _ => none) (World.mk none none none none)).1).trans
     (by rfl)⟩

set_option maxRecDepth 4000 in
/-- C6 counterexample: on the spec's end-to-end scenario the assembled
context is not byte-for-byte the claimed string — the loop's trailing empty
part makes the join end with a final newline, which the claimed string
lacks. -/
theorem scenario_context_ne_claimed_string :
    assemble_context scenarioEntities scenarioWorld
      ≠ "=== WORLD SETTING ===\nName: Test\nTone: grim\nSetting: frontier\nDescription: A harsh land\n\n=== ITEMS ===\n- Sword: A sharp blade\n\n=== RULES ===\n- [HIGH PRIORITY] Initiative: Roll first" := by
  intro h
  have hlen := congrArg String.length h
  rw [show assemble_context scenarioEntities scenarioWorld
      = "=== WORLD SETTING ===\nName: Test\nTone: grim\nSetting: frontier\nDescription: A harsh land\n\n=== ITEMS ===\n- Sword: A sharp blade\n\n=== RULES ===\n- [HIGH PRIORITY] Initiative: Roll first\n" from rfl] at hlen
  revert hlen
  decide

/-- C6 amended: the scenario's assembled context equals the spec's expected
block read with a final line terminator — the claimed string followed by a
newline. -/
theorem scenario_context_exact :
    assemble_context scenarioEntities scenarioWorld
      = "=== WORLD SETTING ===\nName: Test\nTone: grim\nSetting: frontier\nDescription: A harsh land\n\n=== ITEMS ===\n- Sword: A sharp blade\n\n=== RULES ===\n- [HIGH PRIORITY] Initiative: Roll first\n" :=
  rfl

theorem except_bind_ok {ε α β : Type} (a : α) (f : α → Except ε β) :
    (Except.ok a : Except ε α) >>= f = f a :=
  rfl

theorem except_bind_error {ε α β : Type} (e : ε) (f : α → Except ε β) :
    (Except.error e : Except ε α) >>= f = Except.error e :=
  rfl

/-- C5: a mode tag other than `rag`, `no_rag` and `random` makes
`run_experiment` produce no outcome and, once the world lookup has
succeeded, raise exactly `Unknown mode: <tag>`. -/
theorem unknown_mode_fails {Emb : Type}
    (worldLookup : Except String World) (embedFn : String → Emb)
    (matchFn : Emb → String → Nat → Except String (Option (List Entity)))
    (store : String → Except String (Option (List Entity)))
    (sampler : List Entity → Nat → List Entity)
    (genFn : String → String → GenerationResult)
    (player_message mode : String) (top_k : Nat)
    (h1 : mode ≠ "rag") (h2 : mode ≠ "no_rag") (h3 : mode ≠ "random") :
    (∀ o : ExperimentOutcome,
        run_experiment worldLookup embedFn matchFn store sampler genFn
          player_message mode top_k ≠ Except.ok o) ∧
    (∀ w : World, worldLookup = Except.ok w →
        run_experiment worldLookup embedFn matchFn store sampler genFn
          player_message mode top_k
          = Except.error ("Unknown mode: " ++ mode)) := by
  cases worldLookup with
  | error e =>
    constructor
    · intro o h
      rw [run_experiment, except_bind_error] at h
      exact Except.noConfusion h
    · intro w hw
      exact Except.noConfusion hw
  | ok w =>
    have hrun : run_experiment (Except.ok w) embedFn matchFn store sampler
        genFn player_message mode top_k
        = Except.error ("Unknown mode: " ++ mode) := by
      rw [run_experiment, except_bind_ok]
      simp only [h1, h2, h3, if_false]
      rw [except_bind_error]
    constructor
    · intro o h
      rw [hrun] at h
      exact Except.noConfusion h
    · intro w' hw
      exact hrun

/-- C5 witness: mode `bogus` against fully concrete services. -/
theorem unknown_mode_fails_witness :
    ("bogus" ≠ "rag" ∧ "bogus" ≠ "no_rag" ∧ "bogus" ≠ "random") ∧
    run_experiment (Except.ok scenarioWorld) (fun _ => ())
        (fun _ _ _ => Except.ok none) wStore (fun l _ => l)
        (fun _ _ => GenerationResult.mk "ok" 0 0 0) "hello" "bogus" 5
      = Except.error "Unknown mode: bogus" :=
  ⟨⟨by decide, by decide, by decide⟩,
   (unknown_mode_fails (Except.ok scenarioWorld) (fun _ => ())
      (fun _ _ _ => Except.ok none) wStore (fun l _ => l)
      (fun _ _ => GenerationResult.mk "ok" 0 0 0) "hello" "bogus" 5
      (by decide) (by decide) (by decide)).2 scenarioWorld rfl⟩
